import Mathlib

/-!
Shallow embedding of the record-store layer of the hotel-support demo:
`server/bookings.ts` (the unnamed module holding `createBooking`,
`updateBooking`, `deleteBooking`, `getBookings`, `seedBookings`, …) and
`server/support-requests.ts`.  JavaScript strings are modelled as Lean
`String`, with the string operations the source uses (`trim`,
`toLowerCase`, `includes`, code-unit `<`) re-implemented structurally on
the underlying character lists so that all definitions evaluate inside
the kernel.  Asynchronous file state is made explicit: bookings carry
their snapshot as a `List Booking` (the parsed contents of
`data/bookings.json`), support requests carry an `SRWorld` holding the
optional file snapshot, a read-only flag for the medium, and the
module-level `inMemoryStore` fallback.
-/

/-- JavaScript string primitives used by the source, modelled on `List Char`. -/
def jsWhitespace (c : Char) : Bool :=
  decide (c = ' ') || decide (c = '\t') || decide (c = '\n') || decide (c = '\r')

/-- `String.prototype.trim` (ASCII whitespace suffices for this code base). -/
def trimStr (s : String) : String :=
  String.mk (((s.data.dropWhile jsWhitespace).reverse.dropWhile jsWhitespace).reverse)

/-- `String.prototype.toLowerCase` restricted to the characters this code base uses. -/
def lowerStr (s : String) : String :=
  String.mk (s.data.map Char.toLower)

/-- JavaScript `<` on strings: code-unit lexicographic comparison. -/
def charListLt : List Char → List Char → Bool
  | [], [] => false
  | [], _ :: _ => true
  | _ :: _, [] => false
  | a :: as, b :: bs =>
    if a.toNat < b.toNat then true
    else if b.toNat < a.toNat then false
    else charListLt as bs

/-- `String.prototype.includes`: substring search over character lists. -/
def containsSub (needle : List Char) : List Char → Bool
  | [] => needle.isEmpty
  | c :: rest => List.isPrefixOf needle (c :: rest) || containsSub needle rest

/-- `normalizeName` from `server/bookings.ts`: trim then lower-case. -/
def normalizeName (value : String) : String :=
  lowerStr (trimStr value)

inductive BookingStatus
  | pending
  | confirmed
  | checked_in
  | checked_out
  | cancelled
deriving DecidableEq, Repr

/-- The `Booking` record of `server/bookings.ts`. -/
structure Booking where
  id : String
  confirmationCode : String
  guestName : String
  email : String
  phone : String
  roomType : String
  status : BookingStatus
  checkIn : String
  checkOut : String
  specialRequests : Option String
  createdAt : String
  updatedAt : String
deriving DecidableEq, Repr

/-- `BookingFilters`: `status` may arrive as a single value or an array; the
source normalizes to an array, so the model stores the normalized list.
`none` models an absent (`undefined`) field; JavaScript truthiness of the
string fields (empty string is falsy) is handled at the use sites. -/
structure BookingFilters where
  status : Option (List BookingStatus) := none
  guestName : Option String := none
  confirmationCode : Option String := none
  upcomingOnly : Bool := false
deriving DecidableEq, Repr

structure CreateBookingInput where
  guestName : String
  email : String
  phone : String
  roomType : String
  checkIn : String
  checkOut : String
  specialRequests : Option String := none
  status : Option BookingStatus := none
deriving DecidableEq, Repr

/-- `UpdateBookingInput = Partial<Omit<Booking, "id" | "confirmationCode" | "createdAt">>`:
every remaining field may be present (`some`) or absent (`none`). -/
structure UpdateBookingInput where
  guestName : Option String := none
  email : Option String := none
  phone : Option String := none
  roomType : Option String := none
  status : Option BookingStatus := none
  checkIn : Option String := none
  checkOut : Option String := none
  specialRequests : Option (Option String) := none
  updatedAt : Option String := none
deriving DecidableEq, Repr

/-- Alphabet used by `generateConfirmationCode`. -/
def confAlphabet : String := "ABCDEFGHIJKLMNOPQRSTUVWXYZ0123456789"

/-- `generateConfirmationCode`: six draws of `Math.floor(Math.random() * 36)`
(each a value in `Fin 36`) indexed into the alphabet. -/
def generateConfirmationCode (draws : Fin 6 → Fin 36) : String :=
  String.mk ((List.finRange 6).map fun i =>
    confAlphabet.data.get (Fin.cast (by decide) (draws i)))

/-- `buildBooking`: `randomUUID()` and the random draws are explicit parameters. -/
def buildBooking (payload : CreateBookingInput) (uuid : String)
    (draws : Fin 6 → Fin 36) (now : String) : Booking :=
  { id := uuid
    confirmationCode := generateConfirmationCode draws
    guestName := trimStr payload.guestName
    email := trimStr payload.email
    phone := trimStr payload.phone
    roomType := trimStr payload.roomType
    status := payload.status.getD BookingStatus.pending
    checkIn := payload.checkIn
    checkOut := payload.checkOut
    specialRequests := payload.specialRequests.map trimStr
    createdAt := now
    updatedAt := now }

/-- `createBooking`: read the snapshot, build, push, write.  Returns the
written snapshot together with the new booking. -/
def createBooking (bookings : List Booking) (payload : CreateBookingInput)
    (uuid : String) (draws : Fin 6 → Fin 36) (now : String) :
    List Booking × Booking :=
  let booking := buildBooking payload uuid draws now
  (bookings ++ [booking], booking)

/-- First guard of `getBookings`' `filter` callback: status set membership
(`statuses.includes(booking.status)`), skipped when absent. -/
def statusClause (st : Option (List BookingStatus)) (booking : Booking) : Bool :=
  match st with
  | none => true
  | some statuses => decide (booking.status ∈ statuses)

/-- Second guard: case-insensitive confirmation-code equality.  An empty
string is falsy in JavaScript, so an empty-string filter is skipped. -/
def codeClause (cc : Option String) (booking : Booking) : Bool :=
  match cc with
  | none => true
  | some c =>
    if c.data.isEmpty then true
    else decide (lowerStr booking.confirmationCode = lowerStr c)

/-- Third guard: case-insensitive substring match of the normalized search
string in the normalized guest name; an empty-string filter is skipped. -/
def nameClause (gn : Option String) (booking : Booking) : Bool :=
  match gn with
  | none => true
  | some g =>
    if g.data.isEmpty then true
    else containsSub (normalizeName g).data (normalizeName booking.guestName).data

/-- Fourth guard: `upcomingOnly` rejects when `booking.checkOut < today`. -/
def upcomingClause (up : Bool) (today : String) (booking : Booking) : Bool :=
  if up then !(charListLt booking.checkOut.data today.data) else true

/-- The predicate of `getBookings`' `filter` callback: the four guards in
source order, each returning `false` short-circuiting the rest. -/
def matchesFilters (filters : BookingFilters) (today : String) (booking : Booking) : Bool :=
  statusClause filters.status booking &&
  codeClause filters.confirmationCode booking &&
  nameClause filters.guestName booking &&
  upcomingClause filters.upcomingOnly today booking

/-- `getBookings`: read the snapshot and filter it (no filters returns all).
`today` (`new Date().toISOString().slice(0, 10)`) is an explicit parameter. -/
def getBookings (bookings : List Booking) (filters : Option BookingFilters)
    (today : String) : List Booking :=
  match filters with
  | none => bookings
  | some f => bookings.filter (matchesFilters f today)

/-- The object-spread merge `{ ...bookings[index], ...updates, updatedAt: now }`:
present fields of `updates` override, `updatedAt` is then overwritten with `now`;
`id`, `confirmationCode`, `createdAt` are not part of `UpdateBookingInput`. -/
def applyBookingUpdates (b : Booking) (u : UpdateBookingInput) (now : String) : Booking :=
  { id := b.id
    confirmationCode := b.confirmationCode
    guestName := u.guestName.getD b.guestName
    email := u.email.getD b.email
    phone := u.phone.getD b.phone
    roomType := u.roomType.getD b.roomType
    status := u.status.getD b.status
    checkIn := u.checkIn.getD b.checkIn
    checkOut := u.checkOut.getD b.checkOut
    specialRequests := u.specialRequests.getD b.specialRequests
    createdAt := b.createdAt
    updatedAt := now }

/-- `updateBooking` run against the current file snapshot: on `findIndex`
failure it throws before any write, so the file component is returned
unchanged; otherwise the updated snapshot is written.  The inner
`getElem?` branch is unreachable (the found index is in range) and
mirrors the throw for uniformity. -/
def updateBookingRun (file : List Booking) (id : String)
    (updates : UpdateBookingInput) (now : String) :
    List Booking × Except String Booking :=
  match file.findIdx? (fun b => decide (b.id = id)) with
  | none => (file, Except.error "Booking not found")
  | some index =>
    match file[index]? with
    | none => (file, Except.error "Booking not found")
    | some b =>
      let updated := applyBookingUpdates b updates now
      (file.set index updated, Except.ok updated)

/-- `deleteBooking`: `bookings.filter((booking) => booking.id !== id)`. -/
def deleteBooking (bookings : List Booking) (id : String) : List Booking :=
  bookings.filter (fun b => !(decide (b.id = id)))

deriving instance DecidableEq for Except

/-- Medium failure raised by `fs.writeFile` on a read-only filesystem. -/
inductive FsError
  | writeRejected
deriving DecidableEq, Repr

/-- `createBooking` including the durable write: `writeBookings` performs a
bare `fs.writeFile` with no catch, so on a read-only medium the rejection
propagates to the caller.  (`readOnly = false` is the durable mode.) -/
def createBookingFs (readOnly : Bool) (file : List Booking)
    (payload : CreateBookingInput) (uuid : String) (draws : Fin 6 → Fin 36)
    (now : String) : Except FsError (List Booking × Booking) :=
  let booking := buildBooking payload uuid draws now
  if readOnly then Except.error FsError.writeRejected
  else Except.ok (file ++ [booking], booking)

/-- `BookingSummary` from `server/support.ts`: a pick of `Booking` fields. -/
structure BookingSummary where
  id : String
  guestName : String
  confirmationCode : String
  roomType : String
  status : BookingStatus
  checkIn : String
  checkOut : String
deriving DecidableEq, Repr

inductive SupportRequestStatus
  | pending
  | resolved
  | closed
deriving DecidableEq, Repr

inductive EscalationLevel
  | self_service
  | agent
  | manager
deriving DecidableEq, Repr

structure ResolutionOption where
  title : String
  summary : String
  actions : List String
  impact : String
  escalationLevel : EscalationLevel
deriving DecidableEq, Repr

/-- The `outcome` object attached at resolution time (`resolvedAt` stamped). -/
structure SupportOutcome where
  title : String
  summary : String
  actions : List String
  impact : String
  escalationLevel : EscalationLevel
  resolvedBy : Option String := none
  resolvedAt : String
  notes : Option String := none
deriving DecidableEq, Repr

/-- The outcome payload passed to `resolveSupportRequest` (no `resolvedAt` yet). -/
structure OutcomeInput where
  title : String
  summary : String
  actions : List String
  impact : String
  escalationLevel : EscalationLevel
  resolvedBy : Option String := none
  notes : Option String := none
deriving DecidableEq, Repr

/-- `{ ...outcome, resolvedAt: new Date().toISOString() }`. -/
def mkOutcome (oc : OutcomeInput) (now : String) : SupportOutcome :=
  { title := oc.title
    summary := oc.summary
    actions := oc.actions
    impact := oc.impact
    escalationLevel := oc.escalationLevel
    resolvedBy := oc.resolvedBy
    resolvedAt := now
    notes := oc.notes }

/-- `SupportRequestRecord` from `server/support-requests.ts`.  The
`undefined`/`null` distinction of `booking` and `outcome` is collapsed
into a single `Option` (both mean "no value" to every reader). -/
structure SupportRequestRecord where
  id : String
  requestText : String
  bookingId : Option String := none
  confirmationCode : Option String := none
  contactEmail : Option String := none
  booking : Option BookingSummary := none
  status : SupportRequestStatus
  resolutionOptions : Option (List ResolutionOption) := none
  outcome : Option SupportOutcome := none
  createdAt : String
  updatedAt : String
deriving DecidableEq, Repr

/-- Explicit state for `server/support-requests.ts`: the durable snapshot
(`none` = `DATA_PATH` missing), whether the medium rejects writes, and the
module-level `inMemoryStore` fallback. -/
structure SRWorld where
  file : Option (List SupportRequestRecord)
  readOnly : Bool
  inMemory : List SupportRequestRecord
deriving DecidableEq, Repr

/-- `ensureStore`: if the file is missing, seed it with `[]`; on a read-only
medium the write fails and is swallowed (the fallback takes over later). -/
def srEnsureStore (w : SRWorld) : SRWorld :=
  match w.file with
  | some _ => w
  | none => if w.readOnly then w else { w with file := some [] }

/-- `readSupportRequests`: read the file and sync `inMemoryStore` with it;
if the read fails (file still missing), fall back to `inMemoryStore`. -/
def readSupportRequests (w : SRWorld) : SRWorld × List SupportRequestRecord :=
  let w1 := srEnsureStore w
  match w1.file with
  | some data => ({ w1 with inMemory := data }, data)
  | none => (w1, w1.inMemory)

/-- `writeSupportRequests`: write the file and sync `inMemoryStore`; if the
write fails (read-only medium), only `inMemoryStore` is updated. -/
def writeSupportRequests (w : SRWorld) (requests : List SupportRequestRecord) : SRWorld :=
  let w1 := srEnsureStore w
  if w1.readOnly then { w1 with inMemory := requests }
  else { w1 with file := some requests, inMemory := requests }

structure CreateSupportInput where
  requestText : String
  bookingId : Option String := none
  confirmationCode : Option String := none
  contactEmail : Option String := none
  booking : Option BookingSummary := none
  resolutionOptions : Option (List ResolutionOption) := none
deriving DecidableEq, Repr

/-- `createSupportRequest`: read, build the record (status `pending`,
timestamps `now`), push, write.  Total: read and write failures are both
caught inside the helpers. -/
def createSupportRequest (w : SRWorld) (payload : CreateSupportInput)
    (uuid : String) (now : String) : SRWorld × SupportRequestRecord :=
  let pr := readSupportRequests w
  let record : SupportRequestRecord :=
    { id := uuid
      requestText := trimStr payload.requestText
      bookingId := payload.bookingId
      confirmationCode := payload.confirmationCode
      contactEmail := payload.contactEmail
      booking := payload.booking
      status := SupportRequestStatus.pending
      resolutionOptions := payload.resolutionOptions
      outcome := none
      createdAt := now
      updatedAt := now }
  (writeSupportRequests pr.1 (pr.2 ++ [record]), record)

structure SRFilters where
  status : Option (List SupportRequestStatus) := none
  confirmationCode : Option String := none
deriving DecidableEq, Repr

/-- The filter callback of `getSupportRequests`.  A record with no
confirmation code fails the optional-chained comparison
(`undefined !== string`). -/
def srMatches (filters : SRFilters) (req : SupportRequestRecord) : Bool :=
  (match filters.status with
   | none => true
   | some statuses => decide (req.status ∈ statuses)) &&
  (match filters.confirmationCode with
   | none => true
   | some cc =>
     if cc.data.isEmpty then true
     else match req.confirmationCode with
       | none => false
       | some rc => decide (lowerStr rc = lowerStr cc))

/-- `getSupportRequests`: read then filter in memory. -/
def getSupportRequests (w : SRWorld) (filters : Option SRFilters) :
    SRWorld × List SupportRequestRecord :=
  let pr := readSupportRequests w
  match filters with
  | none => pr
  | some f => (pr.1, pr.2.filter (srMatches f))

/-- The record replacement performed by `resolveSupportRequest`:
`{ ...requests[index], status: "resolved", outcome: { ...outcome, resolvedAt }, updatedAt }`. -/
def applyResolve (r : SupportRequestRecord) (oc : OutcomeInput) (now : String) :
    SupportRequestRecord :=
  { r with
    status := SupportRequestStatus.resolved
    outcome := some (mkOutcome oc now)
    updatedAt := now }

/-- `resolveSupportRequest`: read, `findIndex`, throw `"Support request not
found"` before any write when absent, else replace in place and write.
The inner `getElem?` branch is unreachable (the found index is in range)
and mirrors the throw for uniformity. -/
def resolveSupportRequest (w : SRWorld) (id : String) (oc : OutcomeInput)
    (now : String) : SRWorld × Except String SupportRequestRecord :=
  let pr := readSupportRequests w
  match pr.2.findIdx? (fun r => decide (r.id = id)) with
  | none => (pr.1, Except.error "Support request not found")
  | some index =>
    match pr.2[index]? with
    | none => (pr.1, Except.error "Support request not found")
    | some r =>
      let updated := applyResolve r oc now
      (writeSupportRequests pr.1 (pr.2.set index updated), Except.ok updated)

structure SRStats where
  total : Nat
  pending : Nat
  resolved : Nat
  closed : Nat
deriving DecidableEq, Repr

/-- The `reduce` of `getSupportRequestStats`. -/
def srStatsOf (l : List SupportRequestRecord) : SRStats :=
  l.foldl
    (fun acc req =>
      let acc := { acc with total := acc.total + 1 }
      match req.status with
      | SupportRequestStatus.pending => { acc with pending := acc.pending + 1 }
      | SupportRequestStatus.resolved => { acc with resolved := acc.resolved + 1 }
      | SupportRequestStatus.closed => { acc with closed := acc.closed + 1 })
    { total := 0, pending := 0, resolved := 0, closed := 0 }

/-- `getSupportRequestStats`: read then reduce. -/
def getSupportRequestStats (w : SRWorld) : SRWorld × SRStats :=
  let pr := readSupportRequests w
  (pr.1, srStatsOf pr.2)

/-!
Interleaving semantics for concurrent `createBooking` calls.  Each call
suspends exactly twice: at `await readBookings()` and at
`await writeBookings(...)`; between the two it builds and pushes the new
booking onto its privately captured snapshot.  A task is therefore a
two-step machine: step one captures the current file as its snapshot,
step two writes `snapshot ++ [booking]` back.  A schedule is the list of
task indices in the order the event loop runs their steps.
-/

structure CreateTask where
  snapshot : Option (List Booking)
  booking : Booking
  done : Bool
deriving DecidableEq, Repr

structure RaceState where
  file : List Booking
  tasks : List CreateTask
deriving DecidableEq, Repr

/-- Run one step of task `i`: its pending read if it has not read yet,
else its write; a finished or missing task leaves the state unchanged. -/
def raceStep (s : RaceState) (i : Nat) : RaceState :=
  match s.tasks[i]? with
  | none => s
  | some t =>
    if t.done then s
    else
      match t.snapshot with
      | none =>
        { s with tasks := s.tasks.set i { t with snapshot := some s.file } }
      | some snap =>
        { file := snap ++ [t.booking]
          tasks := s.tasks.set i { t with done := true } }

/-- Run a whole schedule. -/
def raceRun (s : RaceState) (sched : List Nat) : RaceState :=
  sched.foldl raceStep s

/-!
The serialized form written by `writeBookings`:
`JSON.stringify(bookings, null, 2)` for an array of booking objects, with
object keys in insertion order and `specialRequests` omitted when absent.
`fs.writeFile` truncates the destination and then writes the new bytes in
order, so a crash mid-write leaves some strict prefix of the new contents
as the whole file.
-/

def bookingStatusStr : BookingStatus → String
  | BookingStatus.pending => "pending"
  | BookingStatus.confirmed => "confirmed"
  | BookingStatus.checked_in => "checked_in"
  | BookingStatus.checked_out => "checked_out"
  | BookingStatus.cancelled => "cancelled"

/-- JSON string escaping for the characters occurring in this development. -/
def jsonEscapeChar (c : Char) : List Char :=
  if c = '"' then ['\\', '"']
  else if c = '\\' then ['\\', '\\']
  else if c = '\n' then ['\\', 'n']
  else [c]

def jsonString (s : String) : String :=
  String.mk ('"' :: (s.data.map jsonEscapeChar).flatten ++ ['"'])

/-- One booking object at depth 1 of `JSON.stringify(_, null, 2)`. -/
def serializeBookingObj (b : Booking) : String :=
  let fields : List (String × String) :=
    [("id", jsonString b.id),
     ("confirmationCode", jsonString b.confirmationCode),
     ("guestName", jsonString b.guestName),
     ("email", jsonString b.email),
     ("phone", jsonString b.phone),
     ("roomType", jsonString b.roomType),
     ("status", jsonString (bookingStatusStr b.status)),
     ("checkIn", jsonString b.checkIn),
     ("checkOut", jsonString b.checkOut)]
    ++ (match b.specialRequests with
        | none => []
        | some s => [("specialRequests", jsonString s)])
    ++ [("createdAt", jsonString b.createdAt),
        ("updatedAt", jsonString b.updatedAt)]
  "\x7b\n" ++
    String.intercalate ",\n" (fields.map fun kv => "    " ++ jsonString kv.1 ++ ": " ++ kv.2) ++
    "\n  \x7d"

/-- `JSON.stringify(bookings, null, 2)` for the whole array. -/
def serializeBookings (l : List Booking) : String :=
  match l with
  | [] => "[" ++ "]"
  | _ :: _ =>
    "[\n" ++
      String.intercalate ",\n" (l.map fun b => "  " ++ serializeBookingObj b) ++
      "\n" ++ "]"

/-- Canonical file contents after `fs.writeFile` of the serialized `next`
snapshot crashes having emitted only the first `k` characters (the file
was already truncated, so the old contents are gone). -/
def storeCrashContents (next : List Booking) (k : Nat) : String :=
  String.mk ((serializeBookings next).data.take k)

/-!
Spec-side predicates for the list/filter claim.  Modelled from the spec:
"returns all entities satisfying an optional predicate (status set
membership, case-insensitive substring match on a name field, exact match
on confirmation code, date-range filters)"; these are stated
independently of `matchesFilters` (substring as `List.IsInfix`,
case-insensitivity as equality of lower-cased strings) and compared with
it in the filter-correctness theorem.
-/

/-- Status filter, as the spec states it: membership in the given set. -/
def SpecStatusPred (f : BookingFilters) (b : Booking) : Prop :=
  ∀ ss, f.status = some ss → b.status ∈ ss

/-- Confirmation-code filter: case-insensitive equality with the given code. -/
def SpecCodePred (f : BookingFilters) (b : Booking) : Prop :=
  ∀ cc, f.confirmationCode = some cc → lowerStr b.confirmationCode = lowerStr cc

/-- Guest-name filter: the normalized search string occurs as a substring
of the normalized guest name. -/
def SpecNamePred (f : BookingFilters) (b : Booking) : Prop :=
  ∀ g, f.guestName = some g →
    (normalizeName g).data <:+: (normalizeName b.guestName).data

/-- `upcomingOnly` filter: the check-out date is not before today. -/
def SpecUpcomingPred (f : BookingFilters) (today : String) (b : Booking) : Prop :=
  f.upcomingOnly = true → charListLt b.checkOut.data today.data = false

/-- The durable-mode twin of a fallback-mode world: same records, but held
in a writable file.  Used to state fallback transparency. -/
def durableTwin (w : SRWorld) : SRWorld :=
  { file := some w.inMemory, readOnly := false, inMemory := w.inMemory }

/-! Concrete sample data used by counterexamples and witnesses. -/

def demoDraws : Fin 6 → Fin 36 := fun _ => ⟨0, by decide⟩

def demoPayload : CreateBookingInput :=
  { guestName := "Alice Smith"
    email := "alice@example.com"
    phone := "555-0100"
    roomType := "Standard"
    checkIn := "2024-06-01"
    checkOut := "2024-06-05" }

def demoBooking : Booking :=
  buildBooking demoPayload "b-1" demoDraws "2024-01-01T00:00:00.000Z"

def racePayload (n : String) : CreateBookingInput :=
  { guestName := "Race User " ++ n
    email := "race" ++ n ++ "@example.com"
    phone := "555-0123"
    roomType := "Standard"
    checkIn := "2023-12-01"
    checkOut := "2023-12-05"
    status := some BookingStatus.confirmed }

/-- Two of the ten concurrent creations of `reproduce_race.ts`, started on
an empty seeded collection; neither has read yet. -/
def raceInit : RaceState :=
  { file := []
    tasks :=
      [{ snapshot := none
         booking := buildBooking (racePayload "0") "race-0" demoDraws "2023-11-01T00:00:00.000Z"
         done := false },
       { snapshot := none
         booking := buildBooking (racePayload "1") "race-1" demoDraws "2023-11-01T00:00:00.000Z"
         done := false }] }

def demoOutcomeA : SupportOutcome :=
  { title := "Refund"
    summary := "Full refund issued"
    actions := ["refund booking"]
    impact := "none"
    escalationLevel := EscalationLevel.agent
    resolvedAt := "2024-01-02T00:00:00.000Z" }

def demoOutcomeInputB : OutcomeInput :=
  { title := "Voucher"
    summary := "Travel voucher issued"
    actions := ["issue voucher"]
    impact := "low"
    escalationLevel := EscalationLevel.manager }

/-- A support request that has already been resolved, outcome attached. -/
def demoResolvedRecord : SupportRequestRecord :=
  { id := "sr-1"
    requestText := "Please move my reservation"
    status := SupportRequestStatus.resolved
    outcome := some demoOutcomeA
    createdAt := "2024-01-01T00:00:00.000Z"
    updatedAt := "2024-01-02T00:00:00.000Z" }

def demoSRWorld : SRWorld :=
  { file := some [demoResolvedRecord], readOnly := false, inMemory := [] }

def demoPendingRecord : SupportRequestRecord :=
  { id := "sr-2"
    requestText := "Late checkout request"
    status := SupportRequestStatus.pending
    createdAt := "2024-01-01T00:00:00.000Z"
    updatedAt := "2024-01-01T00:00:00.000Z" }

def demoPendingWorld : SRWorld :=
  { file := some [demoPendingRecord], readOnly := false, inMemory := [] }

def demoSupportPayload : CreateSupportInput :=
  { requestText := "My room key does not work" }

/-! Helper lemmas. -/

theorem containsSub_iff (needle hay : List Char) :
    containsSub needle hay = true ↔ needle <:+: hay := by
  induction hay with
  | nil =>
    simp [containsSub, List.isEmpty_iff]
  | cons c rest ih =>
    simp only [containsSub, Bool.or_eq_true, List.isPrefixOf_iff_prefix, ih,
      List.infix_cons_iff]

theorem serializeBookings_concat (l : List Booking) :
    ∃ t, (serializeBookings l).data = t ++ [']'] := by
  cases l with
  | nil => exact ⟨['['], by decide⟩
  | cons b bs =>
    refine ⟨("[\n" ++
      String.intercalate ",\n" ((b :: bs).map fun x => "  " ++ serializeBookingObj x) ++
      "\n").data, ?_⟩
    simp [serializeBookings]

/-- C1: the claim says N concurrent `createBooking` calls always leave
exactly `initialCount + N` records because per-collection mutations are
queued FIFO.  The code has no such queue: `createBooking` is an unguarded
read-modify-write with suspension points at `readBookings` and
`writeBookings`.  Under the schedule read₀, read₁, write₀, write₁ both
tasks complete but the collection ends with 1 record instead of 0 + 2:
the second write overwrites the first task's contribution. -/
theorem createBooking_race_loses_update :
    (∀ t ∈ (raceRun raceInit [0, 1, 0, 1]).tasks, t.done = true) ∧
    (raceRun raceInit [0, 1, 0, 1]).file.length = 1 ∧
    (raceRun raceInit [0, 1, 0, 1]).file.length ≠ raceInit.file.length + 2 := by
  decide

/-- C2: the claim says `store` writes to a temporary location and then
atomically renames, so a crashed write always leaves either the old or
the new complete snapshot.  `writeBookings` instead calls `fs.writeFile`
on the canonical path directly (truncate, then write in place): crashing
after the first 5 characters of the new serialization leaves contents
that are the serialization of no collection at all — neither the old
snapshot, nor the new one, nor any other. -/
theorem writeBookings_crash_leaves_no_snapshot :
    ∀ l : List Booking, serializeBookings l ≠ storeCrashContents [demoBooking] 5 := by
  intro l h
  obtain ⟨t, ht⟩ := serializeBookings_concat l
  have h2 : (serializeBookings l).data.getLast? =
      (storeCrashContents [demoBooking] 5).data.getLast? := by rw [h]
  rw [ht, List.getLast?_concat] at h2
  have h3 : (storeCrashContents [demoBooking] 5).data.getLast? = some '\x7b' := by decide
  rw [h3] at h2
  exact absurd h2 (by decide)

/-- C3 counterexample: on a stored request whose status is `resolved` with
an outcome already attached, `resolveSupportRequest` does not fail with
InvalidState — it succeeds, and the record it stores carries the new
outcome, the first one silently overwritten. -/
theorem resolveSupportRequest_overwrites_outcome_cex :
    (resolveSupportRequest demoSRWorld "sr-1" demoOutcomeInputB
        "2024-01-03T00:00:00.000Z").2 =
      Except.ok (applyResolve demoResolvedRecord demoOutcomeInputB
        "2024-01-03T00:00:00.000Z") ∧
    (applyResolve demoResolvedRecord demoOutcomeInputB
        "2024-01-03T00:00:00.000Z").outcome ≠ some demoOutcomeA := by
  decide

/-- C3 amended: `resolveSupportRequest` performs no status check at all: on
any request found by id, whatever its current status and whether or not an
outcome is already attached, it succeeds, sets the status to `resolved`
and unconditionally replaces the outcome with the new one (so a `closed`
request regresses to `resolved`, and an outcome can be overwritten). -/
theorem resolveSupportRequest_unconditional (w : SRWorld) (id : String)
    (oc : OutcomeInput) (now : String) (i : Nat) (r : SupportRequestRecord)
    (h1 : (readSupportRequests w).2.findIdx? (fun x => decide (x.id = id)) = some i)
    (h2 : (readSupportRequests w).2[i]? = some r) :
    (resolveSupportRequest w id oc now).2 = Except.ok (applyResolve r oc now) ∧
    (applyResolve r oc now).status = SupportRequestStatus.resolved ∧
    (applyResolve r oc now).outcome = some (mkOutcome oc now) := by
  refine ⟨?_, rfl, rfl⟩
  simp only [resolveSupportRequest, h1, h2]

/-- Witness for the amended C3 theorem at a concrete pending request. -/
theorem resolveSupportRequest_unconditional_witness :
    (resolveSupportRequest demoPendingWorld "sr-2" demoOutcomeInputB
        "2024-01-05T00:00:00.000Z").2 =
      Except.ok (applyResolve demoPendingRecord demoOutcomeInputB
        "2024-01-05T00:00:00.000Z") ∧
    (applyResolve demoPendingRecord demoOutcomeInputB
        "2024-01-05T00:00:00.000Z").status = SupportRequestStatus.resolved ∧
    (applyResolve demoPendingRecord demoOutcomeInputB
        "2024-01-05T00:00:00.000Z").outcome =
      some (mkOutcome demoOutcomeInputB "2024-01-05T00:00:00.000Z") :=
  resolveSupportRequest_unconditional demoPendingWorld "sr-2" demoOutcomeInputB
    "2024-01-05T00:00:00.000Z" 0 demoPendingRecord (by decide) (by decide)

/-- C4: updating a booking or resolving a support request under an id that
is not present fails with the module's not-found error before any write
happens: the bookings file is returned untouched and the support-request
world keeps its prior durable snapshot. -/
theorem notFound_preserves_state (file : List Booking) (id : String)
    (u : UpdateBookingInput) (now : String) (w : SRWorld)
    (rs : List SupportRequestRecord) (rid : String) (oc : OutcomeInput)
    (hb : ∀ b ∈ file, b.id ≠ id)
    (hw : w.file = some rs) (hr : ∀ r ∈ rs, r.id ≠ rid) :
    updateBookingRun file id u now = (file, Except.error "Booking not found") ∧
    (resolveSupportRequest w rid oc now).2 =
      Except.error "Support request not found" ∧
    (resolveSupportRequest w rid oc now).1.file = w.file := by
  have hfb : file.findIdx? (fun b => decide (b.id = id)) = none :=
    List.findIdx?_eq_none_iff.mpr (fun x hx => by simp [hb x hx])
  obtain ⟨wf, ro, mem⟩ := w
  simp only at hw
  subst hw
  have hread : readSupportRequests ⟨some rs, ro, mem⟩ = (⟨some rs, ro, rs⟩, rs) := rfl
  have hfr : rs.findIdx? (fun r => decide (r.id = rid)) = none :=
    List.findIdx?_eq_none_iff.mpr (fun x hx => by simp [hr x hx])
  refine ⟨?_, ?_, ?_⟩
  · simp only [updateBookingRun, hfb]
  · simp only [resolveSupportRequest, hread, hfr]
  · simp only [resolveSupportRequest, hread, hfr]

/-- Witness for C4 at a concrete store and absent ids. -/
theorem notFound_preserves_state_witness :
    updateBookingRun [demoBooking] "missing-id" {} "2024-02-01T00:00:00.000Z" =
      ([demoBooking], Except.error "Booking not found") ∧
    (resolveSupportRequest demoPendingWorld "missing-id" demoOutcomeInputB
        "2024-02-01T00:00:00.000Z").2 =
      Except.error "Support request not found" ∧
    (resolveSupportRequest demoPendingWorld "missing-id" demoOutcomeInputB
        "2024-02-01T00:00:00.000Z").1.file = demoPendingWorld.file :=
  notFound_preserves_state [demoBooking] "missing-id" {} "2024-02-01T00:00:00.000Z"
    demoPendingWorld [demoPendingRecord] "missing-id" demoOutcomeInputB
    (by decide) (by decide) (by decide)

/-- C5 counterexample: the bookings store has no volatile fallback.
`writeBookings` is a bare `fs.writeFile` with no catch, so with the medium
read-only a `createBooking` call does not succeed — the write rejection
propagates to the caller. -/
theorem createBooking_readOnly_errors_cex :
    createBookingFs true [] demoPayload "b-2" demoDraws
        "2024-01-01T00:00:00.000Z" =
      Except.error FsError.writeRejected := by
  decide

/-- C5 amended: only the support-requests store recovers from a rejected
write.  With the medium read-only and no pre-existing readable snapshot,
`createSupportRequest` still succeeds and returns the same record as the
durable-mode run on the same data would; a subsequent `getSupportRequests`
and `getSupportRequestStats` see exactly the in-memory fallback state,
which coincides with what durable mode would report.  Bookings operations
instead surface the write failure. -/
theorem supportRequests_fallback_transparent (w : SRWorld)
    (p : CreateSupportInput) (uuid now : String)
    (hf : w.file = none) (hro : w.readOnly = true) :
    (createSupportRequest w p uuid now).2 =
      (createSupportRequest (durableTwin w) p uuid now).2 ∧
    (getSupportRequests (createSupportRequest w p uuid now).1 none).2 =
      w.inMemory ++ [(createSupportRequest w p uuid now).2] ∧
    (getSupportRequests (createSupportRequest w p uuid now).1 none).2 =
      (getSupportRequests (createSupportRequest (durableTwin w) p uuid now).1 none).2 ∧
    (getSupportRequestStats (createSupportRequest w p uuid now).1).2 =
      (getSupportRequestStats (createSupportRequest (durableTwin w) p uuid now).1).2 := by
  obtain ⟨wf, ro, mem⟩ := w
  simp only at hf hro
  subst hf hro
  refine ⟨rfl, rfl, rfl, rfl⟩

/-- Witness for the amended C5 theorem at a concrete fallback-mode world. -/
theorem supportRequests_fallback_transparent_witness :
    (createSupportRequest ⟨none, true, []⟩ demoSupportPayload "sr-9"
        "2024-03-01T00:00:00.000Z").2 =
      (createSupportRequest (durableTwin ⟨none, true, []⟩) demoSupportPayload "sr-9"
        "2024-03-01T00:00:00.000Z").2 ∧
    (getSupportRequests (createSupportRequest ⟨none, true, []⟩ demoSupportPayload "sr-9"
        "2024-03-01T00:00:00.000Z").1 none).2 =
      ([] : List SupportRequestRecord) ++
        [(createSupportRequest ⟨none, true, []⟩ demoSupportPayload "sr-9"
          "2024-03-01T00:00:00.000Z").2] ∧
    (getSupportRequests (createSupportRequest ⟨none, true, []⟩ demoSupportPayload "sr-9"
        "2024-03-01T00:00:00.000Z").1 none).2 =
      (getSupportRequests (createSupportRequest (durableTwin ⟨none, true, []⟩)
        demoSupportPayload "sr-9" "2024-03-01T00:00:00.000Z").1 none).2 ∧
    (getSupportRequestStats (createSupportRequest ⟨none, true, []⟩ demoSupportPayload "sr-9"
        "2024-03-01T00:00:00.000Z").1).2 =
      (getSupportRequestStats (createSupportRequest (durableTwin ⟨none, true, []⟩)
        demoSupportPayload "sr-9" "2024-03-01T00:00:00.000Z").1).2 :=
  supportRequests_fallback_transparent ⟨none, true, []⟩ demoSupportPayload "sr-9"
    "2024-03-01T00:00:00.000Z" rfl rfl

/-- C6: `createBooking` appends the freshly built entity at the end of the
collection; the entity carries the supplied fresh id, equal creation and
update timestamps set to now, status defaulting to `pending` when the
payload gives none, and a 6-character confirmation code generated at
creation, each character an uppercase letter or a digit. -/
theorem createBooking_appends_fresh_entity (bookings : List Booking)
    (payload : CreateBookingInput) (uuid : String) (draws : Fin 6 → Fin 36)
    (now : String) (next : List Booking) (b : Booking)
    (h : createBooking bookings payload uuid draws now = (next, b)) :
    next = bookings ++ [b] ∧
    b.id = uuid ∧
    b.createdAt = now ∧
    b.updatedAt = now ∧
    (payload.status = none → b.status = BookingStatus.pending) ∧
    b.confirmationCode = generateConfirmationCode draws ∧
    b.confirmationCode.length = 6 ∧
    (∀ c ∈ b.confirmationCode.data, c.isUpper = true ∨ c.isDigit = true) := by
  simp only [createBooking, Prod.mk.injEq] at h
  obtain ⟨rfl, rfl⟩ := h
  refine ⟨rfl, rfl, rfl, rfl, ?_, rfl, ?_, ?_⟩
  · intro hs
    simp [buildBooking, hs]
  · simp [buildBooking, generateConfirmationCode]
  · intro c hc
    have hmem : c ∈ confAlphabet.data := by
      simp only [buildBooking, generateConfirmationCode, List.mem_map] at hc
      obtain ⟨i, _, rfl⟩ := hc
      exact List.get_mem _ _ _
    revert hmem
    have : ∀ x ∈ confAlphabet.data, x.isUpper = true ∨ x.isDigit = true := by decide
    exact this c

/-- Witness for C6 at a concrete payload with no status given. -/
theorem createBooking_appends_fresh_entity_witness :
    (createBooking [] demoPayload "b-1" demoDraws "2024-01-01T00:00:00.000Z").1 =
      [] ++ [(createBooking [] demoPayload "b-1" demoDraws "2024-01-01T00:00:00.000Z").2] ∧
    (createBooking [] demoPayload "b-1" demoDraws "2024-01-01T00:00:00.000Z").2.id = "b-1" ∧
    (createBooking [] demoPayload "b-1" demoDraws "2024-01-01T00:00:00.000Z").2.createdAt =
      "2024-01-01T00:00:00.000Z" ∧
    (createBooking [] demoPayload "b-1" demoDraws "2024-01-01T00:00:00.000Z").2.updatedAt =
      "2024-01-01T00:00:00.000Z" ∧
    (demoPayload.status = none →
      (createBooking [] demoPayload "b-1" demoDraws "2024-01-01T00:00:00.000Z").2.status =
        BookingStatus.pending) ∧
    (createBooking [] demoPayload "b-1" demoDraws "2024-01-01T00:00:00.000Z").2.confirmationCode =
      generateConfirmationCode demoDraws ∧
    (createBooking [] demoPayload "b-1" demoDraws
      "2024-01-01T00:00:00.000Z").2.confirmationCode.length = 6 ∧
    (∀ c ∈ (createBooking [] demoPayload "b-1" demoDraws
        "2024-01-01T00:00:00.000Z").2.confirmationCode.data,
      c.isUpper = true ∨ c.isDigit = true) :=
  createBooking_appends_fresh_entity [] demoPayload "b-1" demoDraws
    "2024-01-01T00:00:00.000Z" _ _ rfl

/-- C8: `deleteBooking` is a pure filter on the id: deleting an id that is
not present errors nowhere and returns the collection unchanged, and
deleting the same id twice equals deleting it once. -/
theorem deleteBooking_idempotent (bookings : List Booking) (id : String) :
    ((∀ b ∈ bookings, b.id ≠ id) → deleteBooking bookings id = bookings) ∧
    deleteBooking (deleteBooking bookings id) id = deleteBooking bookings id := by
  constructor
  · intro h
    rw [deleteBooking, List.filter_eq_self]
    intro b hb
    simp [h b hb]
  · simp [deleteBooking, List.filter_filter]

/-- Witness for C8 at a concrete collection and an absent id. -/
theorem deleteBooking_idempotent_witness :
    deleteBooking [demoBooking] "missing-id" = [demoBooking] ∧
    deleteBooking (deleteBooking [demoBooking] "missing-id") "missing-id" =
      deleteBooking [demoBooking] "missing-id" :=
  ⟨(deleteBooking_idempotent [demoBooking] "missing-id").1 (by decide),
   (deleteBooking_idempotent [demoBooking] "missing-id").2⟩

/-- C9: a successful `updateBooking` writes back, at the found index, the
merged record, and the merge can never touch `id`, `confirmationCode` or
`createdAt` — `UpdateBookingInput` omits them and the spread keeps the
original values — while `updatedAt` is freshly stamped. -/
theorem updateBooking_preserves_immutable_fields (file : List Booking)
    (id : String) (u : UpdateBookingInput) (now : String) (i : Nat) (b : Booking)
    (h1 : file.findIdx? (fun x => decide (x.id = id)) = some i)
    (h2 : file[i]? = some b) :
    (updateBookingRun file id u now).2 = Except.ok (applyBookingUpdates b u now) ∧
    (updateBookingRun file id u now).1 = file.set i (applyBookingUpdates b u now) ∧
    (applyBookingUpdates b u now).id = b.id ∧
    (applyBookingUpdates b u now).confirmationCode = b.confirmationCode ∧
    (applyBookingUpdates b u now).createdAt = b.createdAt ∧
    (applyBookingUpdates b u now).updatedAt = now := by
  refine ⟨?_, ?_, rfl, rfl, rfl, rfl⟩ <;>
    simp only [updateBookingRun, h1, h2]

/-- Witness for C9: updating the demo booking's guest name in place. -/
theorem updateBooking_preserves_immutable_fields_witness :
    (updateBookingRun [demoBooking] "b-1" { guestName := some "Bob Jones" }
        "2024-02-01T00:00:00.000Z").2 =
      Except.ok (applyBookingUpdates demoBooking { guestName := some "Bob Jones" }
        "2024-02-01T00:00:00.000Z") ∧
    (updateBookingRun [demoBooking] "b-1" { guestName := some "Bob Jones" }
        "2024-02-01T00:00:00.000Z").1 =
      [demoBooking].set 0 (applyBookingUpdates demoBooking
        { guestName := some "Bob Jones" } "2024-02-01T00:00:00.000Z") ∧
    (applyBookingUpdates demoBooking { guestName := some "Bob Jones" }
        "2024-02-01T00:00:00.000Z").id = demoBooking.id ∧
    (applyBookingUpdates demoBooking { guestName := some "Bob Jones" }
        "2024-02-01T00:00:00.000Z").confirmationCode = demoBooking.confirmationCode ∧
    (applyBookingUpdates demoBooking { guestName := some "Bob Jones" }
        "2024-02-01T00:00:00.000Z").createdAt = demoBooking.createdAt ∧
    (applyBookingUpdates demoBooking { guestName := some "Bob Jones" }
        "2024-02-01T00:00:00.000Z").updatedAt = "2024-02-01T00:00:00.000Z" :=
  updateBooking_preserves_immutable_fields [demoBooking] "b-1"
    { guestName := some "Bob Jones" } "2024-02-01T00:00:00.000Z" 0 demoBooking
    (by decide) (by decide)

/-- C10: on a request found by id, `resolveSupportRequest` replaces exactly
that record (same index, collection length and order untouched, all other
records identical), and the replacement changes only `status`, `outcome`
and `updatedAt`: id, request text, confirmation code, contact email,
booking snapshot, resolution options, booking id and creation timestamp
are preserved. -/
theorem resolveSupportRequest_frame (w : SRWorld) (id : String)
    (oc : OutcomeInput) (now : String) (i : Nat) (r : SupportRequestRecord)
    (h1 : (readSupportRequests w).2.findIdx? (fun x => decide (x.id = id)) = some i)
    (h2 : (readSupportRequests w).2[i]? = some r) :
    (resolveSupportRequest w id oc now).2 = Except.ok (applyResolve r oc now) ∧
    (resolveSupportRequest w id oc now).1 =
      writeSupportRequests (readSupportRequests w).1
        ((readSupportRequests w).2.set i (applyResolve r oc now)) ∧
    ((readSupportRequests w).2.set i (applyResolve r oc now)).length =
      (readSupportRequests w).2.length ∧
    (∀ j, j ≠ i →
      ((readSupportRequests w).2.set i (applyResolve r oc now))[j]? =
        (readSupportRequests w).2[j]?) ∧
    ((readSupportRequests w).2.set i (applyResolve r oc now))[i]? =
      some (applyResolve r oc now) ∧
    (applyResolve r oc now).id = r.id ∧
    (applyResolve r oc now).requestText = r.requestText ∧
    (applyResolve r oc now).bookingId = r.bookingId ∧
    (applyResolve r oc now).confirmationCode = r.confirmationCode ∧
    (applyResolve r oc now).contactEmail = r.contactEmail ∧
    (applyResolve r oc now).booking = r.booking ∧
    (applyResolve r oc now).resolutionOptions = r.resolutionOptions ∧
    (applyResolve r oc now).createdAt = r.createdAt ∧
    (applyResolve r oc now).status = SupportRequestStatus.resolved ∧
    (applyResolve r oc now).outcome = some (mkOutcome oc now) ∧
    (applyResolve r oc now).updatedAt = now := by
  refine ⟨?_, ?_, List.length_set _ _ _, ?_, ?_,
    rfl, rfl, rfl, rfl, rfl, rfl, rfl, rfl, rfl, rfl, rfl⟩
  · simp only [resolveSupportRequest, h1, h2]
  · simp only [resolveSupportRequest, h1, h2]
  · intro j hj
    exact List.getElem?_set_ne (fun he => hj he.symm)
  · rw [List.getElem?_set_self', h2]
    rfl

/-- Witness for C10: resolving the demo pending request in a one-record
collection. -/
theorem resolveSupportRequest_frame_witness :
    (resolveSupportRequest demoPendingWorld "sr-2" demoOutcomeInputB
        "2024-01-05T00:00:00.000Z").2 =
      Except.ok (applyResolve demoPendingRecord demoOutcomeInputB
        "2024-01-05T00:00:00.000Z") ∧
    (resolveSupportRequest demoPendingWorld "sr-2" demoOutcomeInputB
        "2024-01-05T00:00:00.000Z").1 =
      writeSupportRequests (readSupportRequests demoPendingWorld).1
        ((readSupportRequests demoPendingWorld).2.set 0
          (applyResolve demoPendingRecord demoOutcomeInputB
            "2024-01-05T00:00:00.000Z")) ∧
    ((readSupportRequests demoPendingWorld).2.set 0
        (applyResolve demoPendingRecord demoOutcomeInputB
          "2024-01-05T00:00:00.000Z")).length =
      (readSupportRequests demoPendingWorld).2.length ∧
    (∀ j, j ≠ 0 →
      ((readSupportRequests demoPendingWorld).2.set 0
          (applyResolve demoPendingRecord demoOutcomeInputB
            "2024-01-05T00:00:00.000Z"))[j]? =
        (readSupportRequests demoPendingWorld).2[j]?) ∧
    ((readSupportRequests demoPendingWorld).2.set 0
        (applyResolve demoPendingRecord demoOutcomeInputB
          "2024-01-05T00:00:00.000Z"))[0]? =
      some (applyResolve demoPendingRecord demoOutcomeInputB
        "2024-01-05T00:00:00.000Z") ∧
    (applyResolve demoPendingRecord demoOutcomeInputB
        "2024-01-05T00:00:00.000Z").id = demoPendingRecord.id ∧
    (applyResolve demoPendingRecord demoOutcomeInputB
        "2024-01-05T00:00:00.000Z").requestText = demoPendingRecord.requestText ∧
    (applyResolve demoPendingRecord demoOutcomeInputB
        "2024-01-05T00:00:00.000Z").bookingId = demoPendingRecord.bookingId ∧
    (applyResolve demoPendingRecord demoOutcomeInputB
        "2024-01-05T00:00:00.000Z").confirmationCode =
      demoPendingRecord.confirmationCode ∧
    (applyResolve demoPendingRecord demoOutcomeInputB
        "2024-01-05T00:00:00.000Z").contactEmail = demoPendingRecord.contactEmail ∧
    (applyResolve demoPendingRecord demoOutcomeInputB
        "2024-01-05T00:00:00.000Z").booking = demoPendingRecord.booking ∧
    (applyResolve demoPendingRecord demoOutcomeInputB
        "2024-01-05T00:00:00.000Z").resolutionOptions =
      demoPendingRecord.resolutionOptions ∧
    (applyResolve demoPendingRecord demoOutcomeInputB
        "2024-01-05T00:00:00.000Z").createdAt = demoPendingRecord.createdAt ∧
    (applyResolve demoPendingRecord demoOutcomeInputB
        "2024-01-05T00:00:00.000Z").status = SupportRequestStatus.resolved ∧
    (applyResolve demoPendingRecord demoOutcomeInputB
        "2024-01-05T00:00:00.000Z").outcome =
      some (mkOutcome demoOutcomeInputB "2024-01-05T00:00:00.000Z") ∧
    (applyResolve demoPendingRecord demoOutcomeInputB
        "2024-01-05T00:00:00.000Z").updatedAt = "2024-01-05T00:00:00.000Z" :=
  resolveSupportRequest_frame demoPendingWorld "sr-2" demoOutcomeInputB
    "2024-01-05T00:00:00.000Z" 0 demoPendingRecord (by decide) (by decide)

theorem data_isEmpty_false_of_ne_empty (s : String) (h : s ≠ "") :
    s.data.isEmpty = false := by
  cases hs : s.data.isEmpty
  · rfl
  · exact absurd (String.ext (by simpa [List.isEmpty_iff] using hs)) h

/-- C7: membership in `getBookings`' result is exactly membership in the
collection together with the conjunction of the spec-side predicates:
status set membership, case-insensitive confirmation-code equality,
case-insensitive substring match on the guest name, and check-out not
before today.  The hypothesis excludes the empty-string confirmation
code, which JavaScript truthiness treats as an absent filter. -/
theorem statusClause_iff (st : Option (List BookingStatus)) (b : Booking) :
    statusClause st b = true ↔ ∀ ss, st = some ss → b.status ∈ ss := by
  cases st <;> simp [statusClause]

theorem codeClause_iff (cc : Option String) (b : Booking) (hcc : cc ≠ some "") :
    codeClause cc b = true ↔
      ∀ c, cc = some c → lowerStr b.confirmationCode = lowerStr c := by
  cases cc with
  | none => simp [codeClause]
  | some c =>
    have hc : c ≠ "" := fun he => hcc (by rw [he])
    simp [codeClause, data_isEmpty_false_of_ne_empty c hc]

theorem nameClause_iff (gn : Option String) (b : Booking) :
    nameClause gn b = true ↔
      ∀ g, gn = some g →
        (normalizeName g).data <:+: (normalizeName b.guestName).data := by
  cases gn with
  | none => simp [nameClause]
  | some g =>
    cases hg : g.data.isEmpty with
    | false => simp [nameClause, hg, containsSub_iff]
    | true =>
      have hge : g = "" := String.ext (by simpa [List.isEmpty_iff] using hg)
      subst hge
      simp [nameClause]
      exact List.nil_infix

theorem upcomingClause_iff (up : Bool) (today : String) (b : Booking) :
    upcomingClause up today b = true ↔
      (up = true → charListLt b.checkOut.data today.data = false) := by
  cases up <;> simp [upcomingClause]

/-- C7: membership in `getBookings`' result is exactly membership in the
collection together with the conjunction of the spec-side predicates:
status set membership, case-insensitive confirmation-code equality,
case-insensitive substring match on the guest name, and check-out not
before today.  The hypothesis excludes the empty-string confirmation
code, which JavaScript truthiness treats as an absent filter. -/
theorem getBookings_filter_correct (bookings : List Booking) (f : BookingFilters)
    (today : String) (b : Booking) (hcc : f.confirmationCode ≠ some "") :
    b ∈ getBookings bookings (some f) today ↔
      b ∈ bookings ∧ SpecStatusPred f b ∧ SpecCodePred f b ∧ SpecNamePred f b ∧
        SpecUpcomingPred f today b := by
  simp only [getBookings, List.mem_filter]
  apply and_congr_right
  intro _
  simp only [matchesFilters, Bool.and_eq_true]
  rw [statusClause_iff, codeClause_iff f.confirmationCode b hcc, nameClause_iff,
    upcomingClause_iff]
  simp only [SpecStatusPred, SpecCodePred, SpecNamePred, SpecUpcomingPred]
  tauto

/-- Witness for C7: a confirmed/upcoming filter on a two-booking store. -/
theorem getBookings_filter_correct_witness :
    demoBooking ∈ getBookings [demoBooking]
        (some { status := some [BookingStatus.pending], upcomingOnly := true })
        "2024-06-01" ↔
      demoBooking ∈ [demoBooking] ∧
        SpecStatusPred { status := some [BookingStatus.pending], upcomingOnly := true }
          demoBooking ∧
        SpecCodePred { status := some [BookingStatus.pending], upcomingOnly := true }
          demoBooking ∧
        SpecNamePred { status := some [BookingStatus.pending], upcomingOnly := true }
          demoBooking ∧
        SpecUpcomingPred { status := some [BookingStatus.pending], upcomingOnly := true }
          "2024-06-01" demoBooking :=
  getBookings_filter_correct [demoBooking]
    { status := some [BookingStatus.pending], upcomingOnly := true }
    "2024-06-01" demoBooking (by decide)
